import Mathlib

set_option maxRecDepth 8000

namespace FsEtl

/-- Python str is modelled as a list of characters. -/
abbrev Str := List Char

/-- Python whitespace test: the character class stripped by str.strip,
str.lstrip and str.rstrip (restricted to the ASCII whitespace characters,
which are the ones that occur in this program). -/
def isPySpace (c : Char) : Bool := c.isWhitespace

/-- Python str.lstrip() with no argument. -/
def pyLStrip (s : Str) : Str := s.dropWhile isPySpace

/-- Python str.rstrip() with no argument. -/
def pyRStrip (s : Str) : Str := (s.reverse.dropWhile isPySpace).reverse

/-- Python str.strip() with no argument. -/
def pyStrip (s : Str) : Str := pyRStrip (pyLStrip s)

/-- Python str.lower(). -/
def pyLower (s : Str) : Str := s.map Char.toLower

/-- Python substring containment, needle in hay. -/
def containsSub (hay needle : Str) : Bool :=
  match hay with
  | [] => needle.isEmpty
  | c :: t => needle.isPrefixOf (c :: t) || containsSub t needle

/-- Python str.splitlines() for the terminators LF, CRLF and CR, which are the
ones a child process stderr stream can contain here; the rarer Python
terminators (form feed, unicode separators) are not modelled. -/
def splitlines : Str → List Str
  | [] => []
  | '\r' :: '\n' :: t => [] :: splitlines t
  | '\n' :: t => [] :: splitlines t
  | '\r' :: t => [] :: splitlines t
  | c :: t =>
    match splitlines t with
    | [] => [[c]]
    | l :: ls => (c :: l) :: ls

/-- The newline join used by executor.py on the filtered stderr lines. -/
def joinLines (lines : List Str) : Str := List.intercalate ['\n'] lines

/- String literals of the source, as character lists. -/

def pgLit : Str := "PostgreSQL".toList

def myLit : Str := "MySQL".toList

def msLit : Str := "MSSQL".toList

def mongoLit : Str := "MongoDB".toList

def sqliteLit : Str := "SQLite".toList

def hostKey : Str := "host".toList

def portKey : Str := "port".toList

def userKey : Str := "user".toList

def passwordKey : Str := "password".toList

def databaseKey : Str := "database".toList

def tableKey : Str := "table".toList

def uriKey : Str := "uri".toList

def collectionKey : Str := "collection".toList

def filePathKey : Str := "file_path".toList

def pgDefaultPort : Str := "5432".toList

def myDefaultPort : Str := "3306".toList

def msDefaultPort : Str := "1433".toList

def errorWord : Str := "Error".toList

def errorColon : Str := "Error: ".toList

def connectedTo : Str := "Connected to ".toList

def successfullyLit : Str := " successfully!".toList

def unsupportedLit : Str := "Unsupported database type: ".toList

def noSchemaMsg : Str := "Connected but couldn't fetch schema".toList

def errorLower : Str := "error".toList

def numpyMarker : Str := "numpy/_core/getlimits.py".toList

def execFailMark : Str := "❌ Error running script: ".toList

def fence : Str := "```".toList

def fencePython : Str := "```python".toList

def pythonLit : Str := "python".toList

/-- generator.strip_code_block: remove markdown code block formatting if
present (text[len("```python"):].lstrip() and so on). -/
def strip_code_block (text : Str) : Str :=
  let text1 :=
    if fencePython.isPrefixOf text then pyLStrip (text.drop fencePython.length)
    else if fence.isPrefixOf text then pyLStrip (text.drop fence.length)
    else text
  if fence.isSuffixOf text1 then pyRStrip (text1.take (text1.length - fence.length))
  else text1

/-- Import-time state of generator.py: which provider client modules imported
successfully at process startup, and the process environment (os.getenv). -/
structure PyEnv where
  googleImportable : Bool
  openaiImportable : Bool
  env : Str → Option Str

/-- The module global LANGCHAIN_AVAILABLE, set once by the import-time
try/except ladder of generator.py. -/
def LANGCHAIN_AVAILABLE (w : PyEnv) : Bool := w.googleImportable || w.openaiImportable

/-- The module global USE_OPENAI: it is defined, with value True, exactly when
the google client failed to import and the openai client imported. -/
def USE_OPENAI (w : PyEnv) : Bool := !w.googleImportable && w.openaiImportable

/-- The membership test of the name USE_OPENAI in locals() inside get_llm.  In
Python, locals() inside a function holds only the function-local variables;
the module-level global USE_OPENAI is never among them, so this test is False
on every call, whatever the import outcome was. -/
def useOpenaiInLocals : Bool := false

def openaiKeyName : Str := "OPENAI_API_KEY".toList

def googleKeyName : Str := "GOOGLE_API_KEY".toList

def neitherProviderMsg : Str :=
  "Neither langchain_google_genai nor langchain_openai is available. Please install one of them.".toList

def openaiKeyMsg : Str := "OPENAI_API_KEY environment variable is required but not set".toList

def googleKeyMsg : Str := "GOOGLE_API_KEY environment variable is required but not set".toList

/-- The NameError text raised when the else branch of get_llm evaluates the
name ChatGoogleGenerativeAI although that import failed (the exact CPython
message also puts quotes around the name; the quotes are not modelled). -/
def chatGoogleNameErr : Str := "name ChatGoogleGenerativeAI is not defined".toList

/-- The chosen provider client. -/
inductive LlmChoice where
  | google
  | openai
deriving DecidableEq

/-- Result of a Python call that can raise: a value or a raised exception. -/
inductive PyOutcome (β : Type) where
  | ok (a : β)
  | importError (msg : Str)
  | valueError (msg : Str)
  | nameError (msg : Str)
deriving DecidableEq

/-- generator.get_llm.  Mirrors the source line by line: the availability
check, then the (always false, see useOpenaiInLocals) locals() test, then the
google branch, which checks GOOGLE_API_KEY and evaluates the name
ChatGoogleGenerativeAI, raising NameError when its import failed. -/
def get_llm (w : PyEnv) : PyOutcome LlmChoice :=
  if !(LANGCHAIN_AVAILABLE w) then .importError neitherProviderMsg
  else if useOpenaiInLocals && USE_OPENAI w then
    match w.env openaiKeyName with
    | none => .valueError openaiKeyMsg
    | some _ => .ok .openai
  else
    match w.env googleKeyName with
    | none => .valueError googleKeyMsg
    | some _ =>
      if w.googleImportable then .ok .google
      else .nameError chatGoogleNameErr

/-- The credentials mapping (Dict[str, Any]); values are modelled as strings,
which the code passes opaquely to the drivers. -/
abbrev Creds := List (Str × Str)

/-- The request data of generate_etl_code.  The prompt built from it is a pure
string of these fields and of the two schema previews; its exact text is
consumed only by the LLM oracle and is not itself modelled, since it is
forwarded verbatim. -/
structure GenRequest where
  source_type : Str
  source_creds : Creds
  target_type : Str
  target_creds : Creds
  transformations : Str

/-- generator.generate_etl_code: initialize the LLM (propagating its
exceptions), invoke it synchronously, and strip markdown fencing from the
response text.  The invoke oracle stands for llm.invoke on the prompt built
from the request. -/
def generate_etl_code (w : PyEnv) (invoke : LlmChoice → GenRequest → Str)
    (req : GenRequest) : PyOutcome Str :=
  match get_llm w with
  | .ok llm => .ok (strip_code_block (invoke llm req))
  | .importError m => .importError m
  | .valueError m => .valueError m
  | .nameError m => .nameError m

/-- Outcome of the spawn/wait sequence of run_etl_script: either the captured
stdout and stderr of the finished child process, or an exception raised by the
temp-file/spawn machinery itself. -/
inductive RunOutcome where
  | ok (stdout stderr : Str)
  | exn (e : Str)

/-- executor.run_etl_script: on a successful spawn, drop every stderr line
containing the benign numpy warning marker, rejoin with newlines, and strip
both streams; on a spawn exception, empty stdout and a marked error text. -/
def run_etl_script (oc : RunOutcome) : Str × Str :=
  match oc with
  | .ok stdout stderr =>
    let filtered_stderr :=
      joinLines ((splitlines stderr).filter (fun line => !(containsSub line numpyMarker)))
    (pyStrip stdout, pyStrip filtered_stderr)
  | .exn e => ([], execFailMark ++ e)

/-- Python creds.get(key, default). -/
def credGet (c : Creds) (k d : Str) : Str := (List.lookup k c).getD d

/-- The keyword arguments of psycopg2.connect in the PostgreSQL branch. -/
def pgParams (c : Creds) : List (Str × Str) :=
  [(hostKey, credGet c hostKey []), (portKey, credGet c portKey pgDefaultPort),
   (userKey, credGet c userKey []), (passwordKey, credGet c passwordKey []),
   (databaseKey, credGet c databaseKey [])]

/-- The keyword arguments of pymysql.connect in the MySQL branch.  The source
wraps the port value in int(); that conversion (and the ValueError it can
raise on a malformed port) happens inside the same try block as the connect
call and is absorbed into the driver-oracle boundary. -/
def myParams (c : Creds) : List (Str × Str) :=
  [(hostKey, credGet c hostKey []), (portKey, credGet c portKey myDefaultPort),
   (userKey, credGet c userKey []), (passwordKey, credGet c passwordKey []),
   (databaseKey, credGet c databaseKey [])]

def msDriverPart : Str := "DRIVER=\x7bODBC Driver 17 for SQL Server\x7d;SERVER=".toList

def msPortSep : Str := ";PORT=".toList

def msUidSep : Str := ";UID=".toList

def msPwdSep : Str := ";PWD=".toList

def msDbSep : Str := ";DATABASE=".toList

/-- The pyodbc connection string built by the MSSQL branch. -/
def mssqlConnString (c : Creds) : Str :=
  msDriverPart ++ credGet c hostKey [] ++
    msPortSep ++ credGet c portKey msDefaultPort ++
    msUidSep ++ credGet c userKey [] ++
    msPwdSep ++ credGet c passwordKey [] ++
    msDbSep ++ credGet c databaseKey []

/-- The table name interpolated into the SELECT statements. -/
def tableArg (c : Creds) : Str := credGet c tableKey []

/-- The MongoClient uri, database name and collection name of the MongoDB
branch. -/
def mongoArgs (c : Creds) : Str × Str × Str :=
  (credGet c uriKey [], credGet c databaseKey [], credGet c collectionKey [])

/-- The sqlite3.connect path and the table name of the SQLite branch. -/
def sqliteArgs (c : Creds) : Str × Str := (credGet c filePathKey [], tableArg c)

/-- Outcome of a SQL driver interaction: the named table (its column names and
all of its rows), or a raised exception.  The LIMIT 2 / TOP 2 clause of the
query the code sends is embedded as List.take 2 of these rows at the call
site.  For SQLite the column names are the ones the separate PRAGMA
table_info introspection query returns. -/
inductive SqlOutcome (α : Type) where
  | table (cols : List Str) (rows : List (List α))
  | exn (e : Str)
deriving DecidableEq

/-- Outcome of the MongoDB interaction: the documents of the collection (each
an association list of field name to value), or a raised exception.  The
cursor limit(2) is embedded as List.take 2 at the call site. -/
inductive MongoOutcome (α : Type) where
  | docs (ds : List (List (Str × α)))
  | exn (e : Str)
deriving DecidableEq

/-- The five external database backends, as oracles from the exact connection
arguments the code passes to an interaction outcome. -/
structure Dbms (α : Type) where
  pg : List (Str × Str) → Str → SqlOutcome α
  my : List (Str × Str) → Str → SqlOutcome α
  ms : Str → Str → SqlOutcome α
  mongo : Str → Str → Str → MongoOutcome α
  sqlite : Str → Str → SqlOutcome α

/-- The dynamically-typed second component of the validate_db_connection
result: the (column_names, rows) pair of a SQL branch, the (fields, documents)
pair of the MongoDB branch, or an error string. -/
inductive VDCPayload (α : Type) where
  | sqlData (cols : List Str) (rows : List (List α))
  | mongoData (fields : List Str) (docs : List (List (Str × α)))
  | msg (s : Str)
deriving DecidableEq

/-- Field names of the first returned document (empty when no documents), as
computed in the MongoDB branch. -/
def mongoFields {α : Type} (docs : List (List (Str × α))) : List Str :=
  match docs with
  | [] => []
  | d :: _ => d.map Prod.fst

/-- validator.validate_db_connection: dispatch on db_type, open the
connection with the supplied credentials (absent fields defaulted), fetch at
most two rows and the column or field names, and catch any exception into
(False, str(e)).  Unsupported types return (False, message) without touching
any oracle. -/
def validate_db_connection {α : Type} (db_type : Str) (creds : Creds)
    (db : Dbms α) : Bool × VDCPayload α :=
  if db_type = pgLit then
    match db.pg (pgParams creds) (tableArg creds) with
    | .table cols rows => (true, .sqlData cols (rows.take 2))
    | .exn e => (false, .msg e)
  else if db_type = myLit then
    match db.my (myParams creds) (tableArg creds) with
    | .table cols rows => (true, .sqlData cols (rows.take 2))
    | .exn e => (false, .msg e)
  else if db_type = msLit then
    match db.ms (mssqlConnString creds) (tableArg creds) with
    | .table cols rows => (true, .sqlData cols (rows.take 2))
    | .exn e => (false, .msg e)
  else if db_type = mongoLit then
    match db.mongo (mongoArgs creds).1 (mongoArgs creds).2.1 (mongoArgs creds).2.2 with
    | .docs ds =>
      let result := ds.take 2
      (true, .mongoData (mongoFields result) result)
    | .exn e => (false, .msg e)
  else if db_type = sqliteLit then
    match db.sqlite (sqliteArgs creds).1 (sqliteArgs creds).2 with
    | .table cols rows => (true, .sqlData cols (rows.take 2))
    | .exn e => (false, .msg e)
  else (false, .msg (unsupportedLit ++ db_type))

/-- A stand-in for the str() of the pandas ValueError raised when the row
width does not match the number of column names (the exact pandas message
carries the two counts; only its existence matters here). -/
def shapeMismatchMsg : Str := "Shape of passed values does not match the columns".toList

/-- The pd.DataFrame(data, columns=column_names).to_dict(orient=records)
normalization of a SQL preview: each row becomes an association list from
column name to value, in column order; pandas raises when some row width
differs from the number of column names, which the caller catches. -/
def toRecords {α : Type} (cols : List Str) (rows : List (List α)) :
    Except Str (List (List (Str × Option α))) :=
  if rows.all (fun r => r.length = cols.length) then
    .ok (rows.map (fun r => cols.zip (r.map some)))
  else .error shapeMismatchMsg

/-- Append to acc the keys of ks it does not hold yet, keeping first-appearance
order. -/
def insertNewKeys (acc ks : List Str) : List Str :=
  ks.foldl (fun a k => if a.contains k then a else a ++ [k]) acc

/-- Column set of a list of MongoDB documents in first-appearance order, as
pd.DataFrame builds it from a list of dicts. -/
def mongoCols {α : Type} (docs : List (List (Str × α))) : List Str :=
  docs.foldl (fun acc d => insertNewKeys acc (d.map Prod.fst)) []

/-- The DataFrame(list-of-dicts).to_dict(orient=records) normalization of the
MongoDB preview: every record carries every column, a missing field becoming
pandas NaN, modelled as none.  The json.dumps/json.loads round trip with
default=str that precedes it only coerces individual values and is absorbed
into the opaque value type. -/
def mongoRecords {α : Type} (docs : List (List (Str × α))) :
    List (List (Str × Option α)) :=
  let cols := mongoCols docs
  docs.map (fun d => cols.map (fun c => (c, List.lookup c d)))

/-- The schema preview part of the validate_and_fetch_schema result: the
Python value is either the empty list (failure) or the
(column_names, preview_records) tuple (success). -/
inductive Preview (α : Type) where
  | empty
  | pair (cols : List Str) (recs : List (List (Str × Option α)))
deriving DecidableEq

/-- The success status string "Connected to X successfully!". -/
def connectedMsg (db_type : Str) : Str := connectedTo ++ db_type ++ successfullyLit

/-- The str() formatting applied by the failure branch of
validate_and_fetch_schema to the validate_db_connection payload.  A failure
payload is always a message string (lemma vdc_false_msg); the pair cases are
unreachable and given a placeholder rendering. -/
def payloadErrText {α : Type} (p : VDCPayload α) : Str :=
  match p with
  | .msg m => m
  | .sqlData _ _ => []
  | .mongoData _ _ => []

/-- validator.validate_and_fetch_schema: validate the connection, normalize
the preview rows, and catch any exception into an Error status with an empty
preview; the isinstance(result, tuple) test of the source corresponds to the
data-pair constructors here, and its else branch to the msg constructor. -/
def validate_and_fetch_schema {α : Type} (db_type : Str) (creds : Creds)
    (db : Dbms α) : Str × Preview α :=
  match validate_db_connection db_type creds db with
  | (true, .sqlData cols rows) =>
    match toRecords cols rows with
    | .ok recs => (connectedMsg db_type, .pair cols recs)
    | .error e => (errorColon ++ e, .empty)
  | (true, .mongoData fields docs) =>
    (connectedMsg db_type, .pair fields (if docs.isEmpty then [] else mongoRecords docs))
  | (true, .msg _) => (noSchemaMsg, .empty)
  | (false, p) => (errorColon ++ payloadErrText p, .empty)

/-- The /execute-code response model. -/
structure ExecutionResponse where
  success : Bool
  stdout : Str
  stderr : Str

/-- The success expression of the /execute-code handler:
not stderr or "error" not in stderr.lower(). -/
def success_flag (stderr : Str) : Bool :=
  stderr.isEmpty || !(containsSub (pyLower stderr) errorLower)

/-- main.execute_code: run the script and classify success from stderr. -/
def execute_code (oc : RunOutcome) : ExecutionResponse :=
  let r := run_etl_script oc
  { success := success_flag r.2, stdout := r.1, stderr := r.2 }

/-- The /validate response model. -/
structure ValidationResponse (α : Type) where
  success : Bool
  message : Str
  preview : Preview α

/-- main.validate_connection: success is not status.startswith("Error").  The
isinstance(preview, list) JSON round trip of the handler applies only to the
empty-list preview and leaves it unchanged, so the preview is passed through
as is. -/
def validate_connection {α : Type} (db_type : Str) (creds : Creds)
    (db : Dbms α) : ValidationResponse α :=
  let r := validate_and_fetch_schema db_type creds db
  { success := !(errorWord.isPrefixOf r.1), message := r.1, preview := r.2 }

/-- JSON values, to state what shape the serialized preview has on the
wire. -/
inductive Json where
  | jnull
  | jstr (s : Str)
  | jarr (xs : List Json)
  | jobj (fields : List (Str × Json))

/-- Serialization of one preview cell; pandas NaN (a missing MongoDB field)
has no faithful JSON form and is rendered as null. -/
def cellJson {α : Type} (vj : α → Json) : Option α → Json
  | some a => vj a
  | none => Json.jnull

/-- Serialization of one preview record (a Python dict) as a JSON object. -/
def recordJson {α : Type} (vj : α → Json) (r : List (Str × Option α)) : Json :=
  Json.jobj (r.map (fun kv => (kv.1, cellJson vj kv.2)))

/-- How the response model serializes the preview: the Python tuple
(column_names, records) becomes a two-element JSON array, the empty list an
empty array. -/
def previewJson {α : Type} (vj : α → Json) : Preview α → Json
  | .empty => Json.jarr []
  | .pair cols recs =>
    Json.jarr [Json.jarr (cols.map Json.jstr), Json.jarr (recs.map (recordJson vj))]

/-- Discriminator: is this JSON value an object. -/
def jsonIsObj : Json → Bool
  | .jobj _ => true
  | _ => false

def columnsKey : Str := "columns".toList

def rowsKey : Str := "rows".toList

/-- Modelled from the spec: the spec describes the successful preview as a
JSON record with a columns field and a rows field; the code instead returns
the (columns, rows) tuple serialized as a two-element array (previewJson). -/
def specPreviewJson {α : Type} (vj : α → Json) (cols : List Str)
    (recs : List (List (Str × Option α))) : Json :=
  Json.jobj [(columnsKey, Json.jarr (cols.map Json.jstr)),
    (rowsKey, Json.jarr (recs.map (recordJson vj)))]

/-- The backtick character, by code point. -/
def btChar : Char := Char.ofNat 96

/- Sample inputs used by witnesses below. -/

def cleanSample : Str := "print(1)".toList

def bodySample : Str := "\nrows = 2\n".toList

def bodySample2 : Str := "\nselect x\n".toList

def endOnlySample : Str := "abc```".toList

def startPythonSample : Str := "```python x".toList

def startBareSample : Str := "``` x".toList

/-- The five supported db_type strings. -/
def supportedTypes : List Str := [pgLit, myLit, msLit, mongoLit, sqliteLit]

def outSample : Str := "hi".toList

def errSample : Str := "ok numpy/_core/getlimits.py warn\nboom".toList

def keptLine : Str := "boom".toList

/-- The oracle in which every driver interaction raises the exception e. -/
def constExnDb (α : Type) (e : Str) : Dbms α :=
  { pg := fun _ _ => SqlOutcome.exn e, my := fun _ _ => SqlOutcome.exn e,
    ms := fun _ _ => SqlOutcome.exn e, mongo := fun _ _ _ => MongoOutcome.exn e,
    sqlite := fun _ _ => SqlOutcome.exn e }

def boomMsg : Str := "connection refused".toList

def oracleLit : Str := "Oracle".toList

/- The SQLite end-to-end scenario of the spec, as a concrete world. -/

def idLit : Str := "id".toList

def nameLit : Str := "name".toList

def oneLit : Str := "1".toList

def velLit : Str := "vel".toList

def usersCols : List Str := [idLit, nameLit]

def usersRow : List Str := [oneLit, velLit]

def tdbPath : Str := "t.db".toList

def usersLit : Str := "users".toList

def tdbCreds : Creds := [(filePathKey, tdbPath), (tableKey, usersLit)]

def downMsg : Str := "no such host".toList

/-- A world in which only the SQLite file t.db with table users(id, name)
holding one row exists. -/
def sqliteUsersDb : Dbms Str :=
  { pg := fun _ _ => SqlOutcome.exn downMsg,
    my := fun _ _ => SqlOutcome.exn downMsg,
    ms := fun _ _ => SqlOutcome.exn downMsg,
    mongo := fun _ _ _ => MongoOutcome.exn downMsg,
    sqlite := fun p t =>
      if p = tdbPath ∧ t = usersLit then SqlOutcome.table usersCols [usersRow]
      else SqlOutcome.exn downMsg }

/- C6: defaults of absent credential fields -/

def pgDefaults : List (Str × Str) :=
  [(hostKey, []), (portKey, pgDefaultPort), (userKey, []), (passwordKey, []),
   (databaseKey, [])]

def myDefaults : List (Str × Str) :=
  [(hostKey, []), (portKey, myDefaultPort), (userKey, []), (passwordKey, []),
   (databaseKey, [])]

def msDefaults : List (Str × Str) :=
  [(hostKey, []), (portKey, msDefaultPort), (userKey, []), (passwordKey, []),
   (databaseKey, [])]

def mongoDefaults : List (Str × Str) :=
  [(uriKey, []), (databaseKey, []), (collectionKey, [])]

def sqliteDefaults : List (Str × Str) :=
  [(filePathKey, []), (tableKey, [])]

/-- The concatenation of all connection parameters, used by the probe oracle
below to expose what reaches the driver. -/
def flattenParams (ps : List (Str × Str)) : Str :=
  ps.foldr (fun kv acc => kv.1 ++ kv.2 ++ acc) []

/-- A probe oracle whose exception text echoes the connection arguments it
received. -/
def probeDb : Dbms Unit :=
  { pg := fun ps _ => SqlOutcome.exn (flattenParams ps),
    my := fun ps _ => SqlOutcome.exn (flattenParams ps),
    ms := fun s _ => SqlOutcome.exn s,
    mongo := fun u d col => MongoOutcome.exn (u ++ d ++ col),
    sqlite := fun p t => SqlOutcome.exn (p ++ t) }

/- C5: LLM backend selection -/

def skLit : Str := "sk-test".toList

/-- Process state in which neither provider client is importable. -/
def envNeitherProvider : PyEnv :=
  { googleImportable := false, openaiImportable := false, env := fun _ => none }

/-- Process state of the documented fallback: the google client is not
importable, the openai client is, and only OPENAI_API_KEY is set. -/
def envOpenaiFallback : PyEnv :=
  { googleImportable := false, openaiImportable := true,
    env := fun k => if k = openaiKeyName then some skLit else none }

/-- Same fallback state but with every environment variable set. -/
def envOpenaiFallbackBothKeys : PyEnv :=
  { googleImportable := false, openaiImportable := true, env := fun _ => some skLit }

/- ------------------------------------------------------------------ -/
/- Lemmas and claim theorems                                           -/
/- ------------------------------------------------------------------ -/

/- Helper lemmas -/

theorem errorWord_prefix_append (e : Str) : errorWord.isPrefixOf (errorColon ++ e) = true := by
  rw [List.isPrefixOf_iff_prefix]
  have h : errorWord.isPrefixOf errorColon = true := by decide
  exact (List.isPrefixOf_iff_prefix.mp h).trans (List.prefix_append _ _)

/-- C1: the /execute-code success flag is true iff the executor stderr is
empty or its lowercase form does not contain the substring error; the flag is
the fixed function success_flag of the stderr field alone, so stdout has no
effect on it. -/
theorem c1_execute_code_success (oc : RunOutcome) :
    ((execute_code oc).success = true ↔
      ((execute_code oc).stderr = [] ∨
        containsSub (pyLower (execute_code oc).stderr) errorLower = false))
    ∧ (execute_code oc).success = success_flag (execute_code oc).stderr
    ∧ (execute_code oc).stderr = (run_etl_script oc).2 := by
  refine ⟨?_, rfl, rfl⟩
  simp [execute_code, success_flag, Bool.or_eq_true, List.isEmpty_iff, Bool.not_eq_true']

/-- C9: on a successful spawn, run_etl_script returns stdout stripped and the
stderr lines filtered by the numpy marker, rejoined and stripped; the kept
lines are a sublist of the original lines (verbatim, in order), they are
exactly the lines not containing the marker. -/
theorem c9_run_etl_script (stdout stderr : Str) :
    run_etl_script (RunOutcome.ok stdout stderr)
        = (pyStrip stdout,
          pyStrip (joinLines ((splitlines stderr).filter
            (fun l => !(containsSub l numpyMarker)))))
    ∧ List.Sublist
        ((splitlines stderr).filter (fun l => !(containsSub l numpyMarker)))
        (splitlines stderr)
    ∧ (∀ l ∈ splitlines stderr, containsSub l numpyMarker = false →
        l ∈ (splitlines stderr).filter (fun l => !(containsSub l numpyMarker)))
    ∧ (∀ l ∈ (splitlines stderr).filter (fun l => !(containsSub l numpyMarker)),
        containsSub l numpyMarker = false) := by
  refine ⟨rfl, List.filter_sublist _, ?_, ?_⟩
  · intro l hl hc
    exact List.mem_filter.mpr ⟨hl, by simp [hc]⟩
  · intro l hl
    have h := (List.mem_filter.mp hl).2
    simpa using h

theorem dropWhile_fence : fence.dropWhile isPySpace = fence := by decide

theorem pyLStrip_append_fence (l : Str) : pyLStrip (l ++ fence) = pyLStrip l ++ fence := by
  unfold pyLStrip
  rw [List.dropWhile_append]
  split
  next h => rw [List.isEmpty_iff.mp h, dropWhile_fence]; rfl
  next h => rfl

theorem python_prefix_of_append_fence (body : Str)
    (h : pythonLit.isPrefixOf (body ++ fence) = true) :
    pythonLit.isPrefixOf body = true := by
  rw [List.isPrefixOf_iff_prefix] at h ⊢
  by_cases hle : pythonLit.length ≤ body.length
  · have h1 : pythonLit = (body ++ fence).take pythonLit.length :=
      List.prefix_iff_eq_take.mp h
    rw [List.take_append_of_le_length hle] at h1
    rw [h1]
    exact List.take_prefix _ _
  · exfalso
    obtain ⟨t, ht⟩ := h
    have hq := congrArg (fun l => l[body.length]?) ht
    simp only at hq
    rw [List.getElem?_append_right (Nat.le_refl _)] at hq
    have hlt : body.length < pythonLit.length := Nat.lt_of_not_le hle
    rw [List.getElem?_append_left hlt] at hq
    have hby : (fence[body.length - body.length]?) = some btChar := by
      rw [Nat.sub_self]; decide
    rw [hby] at hq
    have hmem : btChar ∈ pythonLit := by
      obtain ⟨hh, he⟩ := List.getElem?_eq_some_iff.mp hq
      exact he ▸ List.getElem_mem hh
    revert hmem
    decide

theorem fencePython_append : fencePython = fence ++ pythonLit := by decide

theorem fence_prefix_of_fencePython (x : Str) (h : fencePython.isPrefixOf x = true) :
    fence.isPrefixOf x = true := by
  rw [List.isPrefixOf_iff_prefix] at h ⊢
  have h0 : fence.isPrefixOf fencePython = true := by decide
  exact (List.isPrefixOf_iff_prefix.mp h0).trans h

theorem pyLStrip_suffix (l : Str) : pyLStrip l <:+ l := List.dropWhile_suffix _

theorem notSuffix_of_suffix (x s : Str) (hs : fence.isSuffixOf x = false)
    (h : s <:+ x) : fence.isSuffixOf s = false := by
  rw [Bool.eq_false_iff] at hs ⊢
  intro hss
  exact hs (List.isSuffixOf_iff_suffix.mpr
    ((List.isSuffixOf_iff_suffix.mp hss).trans h))

theorem length_pyLStrip_le (l : Str) : (pyLStrip l).length ≤ l.length :=
  (pyLStrip_suffix l).length_le

theorem length_pyRStrip_le (l : Str) : (pyRStrip l).length ≤ l.length := by
  unfold pyRStrip
  rw [List.length_reverse]
  calc (l.reverse.dropWhile isPySpace).length ≤ l.reverse.length :=
        (List.dropWhile_suffix _).length_le
    _ = l.length := List.length_reverse _

/- Clean-input behavior of strip_code_block. -/

theorem strip_code_block_clean (x : Str) (hp : fence.isPrefixOf x = false)
    (hs : fence.isSuffixOf x = false) : strip_code_block x = x := by
  have hp9 : fencePython.isPrefixOf x = false := by
    rw [Bool.eq_false_iff] at hp ⊢
    intro h9
    exact hp (fence_prefix_of_fencePython x h9)
  simp [strip_code_block, hp9, hp, hs]

theorem strip_python_case (body : Str) :
    strip_code_block (fencePython ++ (body ++ fence)) = pyRStrip (pyLStrip body) := by
  have hpre : fencePython.isPrefixOf (fencePython ++ (body ++ fence)) = true := by
    rw [List.isPrefixOf_iff_prefix]; exact List.prefix_append _ _
  unfold strip_code_block
  rw [hpre]
  simp only [if_true]
  rw [List.drop_left, pyLStrip_append_fence]
  have hsuf : fence.isSuffixOf (pyLStrip body ++ fence) = true := by
    rw [List.isSuffixOf_iff_suffix]; exact List.suffix_append _ _
  rw [hsuf]
  simp only [if_true]
  rw [List.length_append, Nat.add_sub_cancel, List.take_left]

theorem strip_bare_case (body : Str) (h : pythonLit.isPrefixOf body = false) :
    strip_code_block (fence ++ (body ++ fence)) = pyRStrip (pyLStrip body) := by
  have hp9 : fencePython.isPrefixOf (fence ++ (body ++ fence)) = false := by
    rw [Bool.eq_false_iff]
    intro h9
    rw [List.isPrefixOf_iff_prefix, fencePython_append] at h9
    have h10 : pythonLit <+: body ++ fence := (List.prefix_append_right_inj fence).mp h9
    have h11 : pythonLit.isPrefixOf (body ++ fence) = true :=
      List.isPrefixOf_iff_prefix.mpr h10
    rw [python_prefix_of_append_fence body h11] at h
    exact Bool.noConfusion h
  have hpre : fence.isPrefixOf (fence ++ (body ++ fence)) = true := by
    rw [List.isPrefixOf_iff_prefix]; exact List.prefix_append _ _
  unfold strip_code_block
  rw [hp9, hpre]
  simp only [Bool.false_eq_true, if_false, if_true]
  rw [List.drop_left, pyLStrip_append_fence]
  have hsuf : fence.isSuffixOf (pyLStrip body ++ fence) = true := by
    rw [List.isSuffixOf_iff_suffix]; exact List.suffix_append _ _
  rw [hsuf]
  simp only [if_true]
  rw [List.length_append, Nat.add_sub_cancel, List.take_left]

theorem notPython_of_notFence (x : Str) (hp : fence.isPrefixOf x = false) :
    fencePython.isPrefixOf x = false := by
  rw [Bool.eq_false_iff] at hp ⊢
  intro h9
  exact hp (fence_prefix_of_fencePython x h9)

/-- C4: strip_code_block is the identity, hence idempotent, on already-clean
text (no leading and no trailing fence); with a leading python or bare fence
and a trailing fence it removes exactly one of each, returning the stripped
body between them. -/
theorem c4_strip_code_block :
    (∀ x : Str, fence.isPrefixOf x = false → fence.isSuffixOf x = false →
        strip_code_block x = x ∧
          strip_code_block (strip_code_block x) = strip_code_block x)
    ∧ (∀ body : Str,
        strip_code_block (fencePython ++ (body ++ fence)) = pyRStrip (pyLStrip body))
    ∧ (∀ body : Str, pythonLit.isPrefixOf body = false →
        strip_code_block (fence ++ (body ++ fence)) = pyRStrip (pyLStrip body)) := by
  refine ⟨?_, strip_python_case, strip_bare_case⟩
  intro x hp hs
  have h := strip_code_block_clean x hp hs
  exact ⟨h, by rw [h, h]⟩

/-- Witness for c4_strip_code_block at concrete inputs. -/
theorem c4_witness :
    (strip_code_block cleanSample = cleanSample ∧
      strip_code_block (strip_code_block cleanSample) = strip_code_block cleanSample)
    ∧ strip_code_block (fencePython ++ (bodySample ++ fence)) = pyRStrip (pyLStrip bodySample)
    ∧ strip_code_block (fence ++ (bodySample2 ++ fence)) = pyRStrip (pyLStrip bodySample2) :=
  ⟨c4_strip_code_block.1 cleanSample (by decide) (by decide),
   c4_strip_code_block.2.1 bodySample,
   c4_strip_code_block.2.2 bodySample2 (by decide)⟩

/-- C10: one-sided fences are also stripped: a trailing fence without a
leading one is removed (then right-stripped), a leading python or bare fence
without a trailing one is removed (then left-stripped); in each case the
function is not a no-op. -/
theorem c10_one_sided_fence :
    (∀ x : Str, fence.isPrefixOf x = false → fence.isSuffixOf x = true →
        strip_code_block x = pyRStrip (x.take (x.length - fence.length)) ∧
          strip_code_block x ≠ x)
    ∧ (∀ x : Str, fencePython.isPrefixOf x = true → fence.isSuffixOf x = false →
        strip_code_block x = pyLStrip (x.drop fencePython.length) ∧
          strip_code_block x ≠ x)
    ∧ (∀ x : Str, fence.isPrefixOf x = true → fencePython.isPrefixOf x = false →
        fence.isSuffixOf x = false →
        strip_code_block x = pyLStrip (x.drop fence.length) ∧
          strip_code_block x ≠ x) := by
  refine ⟨?_, ?_, ?_⟩
  · intro x hp hs
    have hp9 := notPython_of_notFence x hp
    have he : strip_code_block x = pyRStrip (x.take (x.length - fence.length)) := by
      simp [strip_code_block, hp9, hp, hs]
    refine ⟨he, ?_⟩
    intro hx
    rw [he] at hx
    have h1 : (pyRStrip (x.take (x.length - fence.length))).length ≤ x.length - fence.length :=
      le_trans (length_pyRStrip_le _) (List.length_take_le _ _)
    have h2 : fence.length ≤ x.length := (List.isSuffixOf_iff_suffix.mp hs).length_le
    have h3 : fence.length = 3 := by decide
    have h4 := congrArg List.length hx
    omega
  · intro x hp9 hs
    have hsub : pyLStrip (x.drop fencePython.length) <:+ x :=
      (pyLStrip_suffix _).trans (List.drop_suffix _ _)
    have hs2 : fence.isSuffixOf (pyLStrip (x.drop fencePython.length)) = false :=
      notSuffix_of_suffix x _ hs hsub
    have he : strip_code_block x = pyLStrip (x.drop fencePython.length) := by
      simp [strip_code_block, hp9, hs2]
    refine ⟨he, ?_⟩
    intro hx
    rw [he] at hx
    have h1 : (pyLStrip (x.drop fencePython.length)).length ≤ x.length - fencePython.length := by
      calc (pyLStrip (x.drop fencePython.length)).length
          ≤ (x.drop fencePython.length).length := length_pyLStrip_le _
        _ = x.length - fencePython.length := List.length_drop _ _
    have h2 : fencePython.length ≤ x.length := (List.isPrefixOf_iff_prefix.mp hp9).length_le
    have h3 : fencePython.length = 9 := by decide
    have h4 := congrArg List.length hx
    omega
  · intro x hp hp9 hs
    have hsub : pyLStrip (x.drop fence.length) <:+ x :=
      (pyLStrip_suffix _).trans (List.drop_suffix _ _)
    have hs2 : fence.isSuffixOf (pyLStrip (x.drop fence.length)) = false :=
      notSuffix_of_suffix x _ hs hsub
    have he : strip_code_block x = pyLStrip (x.drop fence.length) := by
      simp [strip_code_block, hp9, hp, hs2]
    refine ⟨he, ?_⟩
    intro hx
    rw [he] at hx
    have h1 : (pyLStrip (x.drop fence.length)).length ≤ x.length - fence.length := by
      calc (pyLStrip (x.drop fence.length)).length
          ≤ (x.drop fence.length).length := length_pyLStrip_le _
        _ = x.length - fence.length := List.length_drop _ _
    have h2 : fence.length ≤ x.length := (List.isPrefixOf_iff_prefix.mp hp).length_le
    have h3 : fence.length = 3 := by decide
    have h4 := congrArg List.length hx
    omega

/-- Witness for c10_one_sided_fence at concrete inputs. -/
theorem c10_witness :
    (strip_code_block endOnlySample =
        pyRStrip (endOnlySample.take (endOnlySample.length - fence.length)) ∧
      strip_code_block endOnlySample ≠ endOnlySample)
    ∧ (strip_code_block startPythonSample =
        pyLStrip (startPythonSample.drop fencePython.length) ∧
      strip_code_block startPythonSample ≠ startPythonSample)
    ∧ (strip_code_block startBareSample =
        pyLStrip (startBareSample.drop fence.length) ∧
      strip_code_block startBareSample ≠ startBareSample) :=
  ⟨c10_one_sided_fence.1 endOnlySample (by decide) (by decide),
   c10_one_sided_fence.2.1 startPythonSample (by decide) (by decide),
   c10_one_sided_fence.2.2 startBareSample (by decide) (by decide) (by decide)⟩

/- Validator lemmas -/

/-- Witness for c9_run_etl_script at a concrete child output. -/
theorem c9_witness :
    run_etl_script (RunOutcome.ok outSample errSample)
        = (pyStrip outSample,
          pyStrip (joinLines ((splitlines errSample).filter
            (fun l => !(containsSub l numpyMarker)))))
    ∧ keptLine ∈ (splitlines errSample).filter (fun l => !(containsSub l numpyMarker))
    ∧ run_etl_script (RunOutcome.ok outSample errSample) = (outSample, keptLine) :=
  ⟨(c9_run_etl_script outSample errSample).1,
   (c9_run_etl_script outSample errSample).2.2.1 keptLine (by decide) (by decide),
   by decide⟩

theorem toRecords_length {α : Type} {cols : List Str} {rows : List (List α)}
    {recs : List (List (Str × Option α))} (h : toRecords cols rows = Except.ok recs) :
    recs.length = rows.length := by
  unfold toRecords at h
  split at h
  · injection h with h1
    subst h1
    simp
  · exact Except.noConfusion h

theorem mongoRecords_length {α : Type} (docs : List (List (Str × α))) :
    (mongoRecords docs).length = docs.length := by
  simp [mongoRecords]

/-- Case enumeration of validate_and_fetch_schema: the result is an Error
status with an empty preview, or the Connected status with a pair preview of
at most two records. -/
theorem vafs_cases {α : Type} (t : Str) (c : Creds) (db : Dbms α) :
    (∃ e, validate_and_fetch_schema t c db = (errorColon ++ e, Preview.empty))
    ∨ (∃ cols recs,
        validate_and_fetch_schema t c db = (connectedMsg t, Preview.pair cols recs)
        ∧ recs.length ≤ 2) := by
  by_cases h1 : t = pgLit
  · subst h1
    cases hpg : db.pg (pgParams c) (tableArg c) with
    | table cols rows =>
      cases ht : toRecords cols (rows.take 2) with
      | ok recs =>
        right
        refine ⟨cols, recs, ?_, ?_⟩
        · simp [validate_and_fetch_schema, validate_db_connection, hpg, ht]
        · rw [toRecords_length ht]
          exact List.length_take_le _ _
      | error e =>
        exact Or.inl ⟨e, by simp [validate_and_fetch_schema, validate_db_connection, hpg, ht]⟩
    | exn e =>
      exact Or.inl ⟨e, by
        simp [validate_and_fetch_schema, validate_db_connection, hpg, payloadErrText]⟩
  · by_cases h2 : t = myLit
    · subst h2
      cases hpg : db.my (myParams c) (tableArg c) with
      | table cols rows =>
        cases ht : toRecords cols (rows.take 2) with
        | ok recs =>
          right
          refine ⟨cols, recs, ?_, ?_⟩
          · simp [validate_and_fetch_schema, validate_db_connection, h1, hpg, ht]
          · rw [toRecords_length ht]
            exact List.length_take_le _ _
        | error e =>
          exact Or.inl ⟨e, by
            simp [validate_and_fetch_schema, validate_db_connection, h1, hpg, ht]⟩
      | exn e =>
        exact Or.inl ⟨e, by
          simp [validate_and_fetch_schema, validate_db_connection, h1, hpg, payloadErrText]⟩
    · by_cases h3 : t = msLit
      · subst h3
        cases hpg : db.ms (mssqlConnString c) (tableArg c) with
        | table cols rows =>
          cases ht : toRecords cols (rows.take 2) with
          | ok recs =>
            right
            refine ⟨cols, recs, ?_, ?_⟩
            · simp [validate_and_fetch_schema, validate_db_connection, h1, h2, hpg, ht]
            · rw [toRecords_length ht]
              exact List.length_take_le _ _
          | error e =>
            exact Or.inl ⟨e, by
              simp [validate_and_fetch_schema, validate_db_connection, h1, h2, hpg, ht]⟩
        | exn e =>
          exact Or.inl ⟨e, by
            simp [validate_and_fetch_schema, validate_db_connection, h1, h2, hpg, payloadErrText]⟩
      · by_cases h4 : t = mongoLit
        · subst h4
          cases hm : db.mongo (mongoArgs c).1 (mongoArgs c).2.1 (mongoArgs c).2.2 with
          | docs ds =>
            right
            refine ⟨mongoFields (ds.take 2),
              (if (ds.take 2).isEmpty then [] else mongoRecords (ds.take 2)), ?_, ?_⟩
            · simp [validate_and_fetch_schema, validate_db_connection, h1, h2, h3, hm]
            · by_cases hemp : (ds.take 2).isEmpty
              · simp [hemp]
              · rw [if_neg hemp, mongoRecords_length]
                exact List.length_take_le _ _
          | exn e =>
            exact Or.inl ⟨e, by
              simp [validate_and_fetch_schema, validate_db_connection, h1, h2, h3, hm,
                payloadErrText]⟩
        · by_cases h5 : t = sqliteLit
          · subst h5
            cases hpg : db.sqlite (sqliteArgs c).1 (sqliteArgs c).2 with
            | table cols rows =>
              cases ht : toRecords cols (rows.take 2) with
              | ok recs =>
                right
                refine ⟨cols, recs, ?_, ?_⟩
                · simp [validate_and_fetch_schema, validate_db_connection, h1, h2, h3, h4,
                    hpg, ht]
                · rw [toRecords_length ht]
                  exact List.length_take_le _ _
              | error e =>
                exact Or.inl ⟨e, by
                  simp [validate_and_fetch_schema, validate_db_connection, h1, h2, h3, h4,
                    hpg, ht]⟩
            | exn e =>
              exact Or.inl ⟨e, by
                simp [validate_and_fetch_schema, validate_db_connection, h1, h2, h3, h4,
                  hpg, payloadErrText]⟩
          · exact Or.inl ⟨unsupportedLit ++ t, by
              simp [validate_and_fetch_schema, validate_db_connection, h1, h2, h3, h4, h5,
                payloadErrText]⟩

/-- C2: the validate_and_fetch_schema status either carries the Error prefix
or is exactly the Connected message for the requested db_type, and the
/validate success boolean is true iff the status does not start with Error. -/
theorem c2_validate_status_contract {α : Type} (db_type : Str) (creds : Creds)
    (db : Dbms α) :
    (errorWord.isPrefixOf (validate_and_fetch_schema db_type creds db).1 = true
      ∨ (validate_and_fetch_schema db_type creds db).1 = connectedMsg db_type)
    ∧ ((validate_connection db_type creds db).success = true
      ↔ errorWord.isPrefixOf (validate_and_fetch_schema db_type creds db).1 = false) := by
  constructor
  · rcases vafs_cases db_type creds db with ⟨e, he⟩ | ⟨cols, recs, he, hlen⟩
    · left
      rw [he]
      exact errorWord_prefix_append e
    · right
      rw [he]
  · simp [validate_connection, Bool.not_eq_true']

/-- C3: when the driver raises an exception e, validate_and_fetch_schema
converts it to the Error status with str(e) and an empty preview; the
function is total in this embedding, mirroring that it never raises to its
caller. -/
theorem c3_exception_to_error {α : Type} (t : Str) (h : t ∈ supportedTypes)
    (c : Creds) (e : Str) :
    validate_and_fetch_schema t c (constExnDb α e) = (errorColon ++ e, Preview.empty) := by
  simp only [supportedTypes, List.mem_cons, List.not_mem_nil, or_false] at h
  rcases h with rfl | rfl | rfl | rfl | rfl
  · rfl
  · rfl
  · rfl
  · rfl
  · rfl

/-- Witness for c3_exception_to_error at PostgreSQL. -/
theorem c3_witness :
    pgLit ∈ supportedTypes
    ∧ validate_and_fetch_schema pgLit [] (constExnDb Unit boomMsg)
        = (errorColon ++ boomMsg, Preview.empty) :=
  ⟨by decide, c3_exception_to_error pgLit (by decide) [] boomMsg⟩

/-- C8: for a db_type outside the five supported ones, validate_db_connection
returns failure with the Unsupported message, validate_and_fetch_schema an
Error status with empty preview, and the result does not depend on the
database oracle at all (no connection is attempted). -/
theorem c8_unsupported {α : Type} (t : Str) (h : t ∉ supportedTypes) (c : Creds)
    (db db2 : Dbms α) :
    validate_db_connection t c db = (false, VDCPayload.msg (unsupportedLit ++ t))
    ∧ validate_and_fetch_schema t c db
        = (errorColon ++ (unsupportedLit ++ t), Preview.empty)
    ∧ validate_db_connection t c db = validate_db_connection t c db2 := by
  simp only [supportedTypes, List.mem_cons, List.not_mem_nil, or_false, not_or] at h
  obtain ⟨h1, h2, h3, h4, h5⟩ := h
  refine ⟨?_, ?_, ?_⟩
  · simp [validate_db_connection, h1, h2, h3, h4, h5]
  · simp [validate_and_fetch_schema, validate_db_connection, h1, h2, h3, h4, h5,
      payloadErrText]
  · simp [validate_db_connection, h1, h2, h3, h4, h5]

/-- Witness for c8_unsupported at the db_type Oracle and two different
oracles. -/
theorem c8_witness :
    oracleLit ∉ supportedTypes
    ∧ (validate_db_connection oracleLit [] (constExnDb Unit [])
          = (false, VDCPayload.msg (unsupportedLit ++ oracleLit))
      ∧ validate_and_fetch_schema oracleLit [] (constExnDb Unit [])
          = (errorColon ++ (unsupportedLit ++ oracleLit), Preview.empty)
      ∧ validate_db_connection oracleLit [] (constExnDb Unit [])
          = validate_db_connection oracleLit [] (constExnDb Unit boomMsg)) :=
  ⟨by decide,
   c8_unsupported oracleLit (by decide) [] (constExnDb Unit []) (constExnDb Unit boomMsg)⟩

/-- C7 (amended): every successful /validate response carries the
(columns, records) pair preview with at most two records, which serializes as
a two-element JSON array, not as an object. -/
theorem c7_success_preview {α : Type} (vj : α → Json) (db_type : Str) (creds : Creds)
    (db : Dbms α) (h : (validate_connection db_type creds db).success = true) :
    ∃ cols recs,
      (validate_connection db_type creds db).preview = Preview.pair cols recs
      ∧ recs.length ≤ 2
      ∧ previewJson vj (validate_connection db_type creds db).preview
          = Json.jarr [Json.jarr (cols.map Json.jstr),
              Json.jarr (recs.map (recordJson vj))] := by
  rcases vafs_cases db_type creds db with ⟨e, he⟩ | ⟨cols, recs, he, hlen⟩
  · exfalso
    have hf : (validate_connection db_type creds db).success = false := by
      simp [validate_connection, he, errorWord_prefix_append]
    rw [h] at hf
    exact Bool.noConfusion hf
  · refine ⟨cols, recs, ?_, hlen, ?_⟩
    · simp [validate_connection, he]
    · simp [validate_connection, he, previewJson]

/-- C7 counterexample: in the SQLite scenario the response succeeds with the
Connected message, but the preview serializes as a two-element array, not as
an object with columns and rows fields as the claim states. -/
theorem c7_counterexample :
    (validate_connection sqliteLit tdbCreds sqliteUsersDb).success = true
    ∧ (validate_connection sqliteLit tdbCreds sqliteUsersDb).message = connectedMsg sqliteLit
    ∧ jsonIsObj (previewJson Json.jstr
        (validate_connection sqliteLit tdbCreds sqliteUsersDb).preview) = false
    ∧ jsonIsObj (specPreviewJson Json.jstr usersCols
        [[(idLit, some oneLit), (nameLit, some velLit)]]) = true
    ∧ previewJson Json.jstr (validate_connection sqliteLit tdbCreds sqliteUsersDb).preview
        = Json.jarr [Json.jarr (usersCols.map Json.jstr),
            Json.jarr [recordJson Json.jstr [(idLit, some oneLit), (nameLit, some velLit)]]] :=
  ⟨by decide, by decide, by decide, by decide, rfl⟩

/-- Witness for c7_success_preview at the SQLite scenario. -/
theorem c7_witness :
    (validate_connection sqliteLit tdbCreds sqliteUsersDb).success = true
    ∧ ∃ cols recs,
        (validate_connection sqliteLit tdbCreds sqliteUsersDb).preview
          = Preview.pair cols recs
        ∧ recs.length ≤ 2
        ∧ previewJson Json.jstr (validate_connection sqliteLit tdbCreds sqliteUsersDb).preview
            = Json.jarr [Json.jarr (cols.map Json.jstr),
                Json.jarr (recs.map (recordJson Json.jstr))] :=
  ⟨by decide, c7_success_preview Json.jstr sqliteLit tdbCreds sqliteUsersDb (by decide)⟩

theorem credGet_cons_self (k v : Str) (c : Creds) (d : Str) :
    credGet ((k, v) :: c) k d = v := by
  simp [credGet, List.lookup]

theorem credGet_cons_ne (k v j : Str) (c : Creds) (d : Str) (h : (j == k) = false) :
    credGet ((k, v) :: c) j d = credGet c j d := by
  simp [credGet, List.lookup, h]

theorem credGet_absent (k : Str) (c : Creds) (d : Str) (h : List.lookup k c = none) :
    credGet c k d = d := by
  simp [credGet, h]

theorem vdc_pg_congr {α : Type} (c c2 : Creds) (db : Dbms α)
    (hpg : pgParams c = pgParams c2) (ht : tableArg c = tableArg c2) :
    validate_db_connection pgLit c db = validate_db_connection pgLit c2 db := by
  unfold validate_db_connection
  rw [if_pos (rfl : pgLit = pgLit), if_pos (rfl : pgLit = pgLit), hpg, ht]

/-- C6 counterexample: with an empty credentials mapping, the PostgreSQL
connect call receives the port value 5432, not the empty string the claim
asserts for every absent field, as the probe oracle confirms. -/
theorem c6_counterexample :
    List.lookup portKey (pgParams []) = some pgDefaultPort
    ∧ pgDefaultPort ≠ ([] : Str)
    ∧ validate_db_connection pgLit [] probeDb
        = (false, VDCPayload.msg (flattenParams (pgParams [])))
    ∧ containsSub (flattenParams (pgParams [])) pgDefaultPort = true :=
  ⟨by decide, by decide, rfl, by decide⟩

/-- C6 (amended): an absent credential field behaves exactly as if its
per-field default were present: the empty string for every field except the
SQL port fields, which default to 5432 (PostgreSQL), 3306 (MySQL) and 1433
(MSSQL); the last part lifts this to the connection attempt itself. -/
theorem c6_defaults_amended {α : Type} (c : Creds) :
    (∀ k d, (k, d) ∈ pgDefaults → List.lookup k c = none →
        pgParams c = pgParams ((k, d) :: c))
    ∧ (∀ k d, (k, d) ∈ myDefaults → List.lookup k c = none →
        myParams c = myParams ((k, d) :: c))
    ∧ (∀ k d, (k, d) ∈ msDefaults → List.lookup k c = none →
        mssqlConnString c = mssqlConnString ((k, d) :: c))
    ∧ (∀ k d, (k, d) ∈ mongoDefaults → List.lookup k c = none →
        mongoArgs c = mongoArgs ((k, d) :: c))
    ∧ (∀ k d, (k, d) ∈ sqliteDefaults → List.lookup k c = none →
        sqliteArgs c = sqliteArgs ((k, d) :: c))
    ∧ (List.lookup tableKey c = none → tableArg c = [])
    ∧ (∀ db : Dbms α, List.lookup portKey c = none →
        validate_db_connection pgLit c db
          = validate_db_connection pgLit ((portKey, pgDefaultPort) :: c) db) := by
  refine ⟨?_, ?_, ?_, ?_, ?_, ?_, ?_⟩
  · intro k d hm h
    simp only [pgDefaults, List.mem_cons, List.not_mem_nil, or_false, Prod.mk.injEq] at hm
    rcases hm with ⟨rfl, rfl⟩ | ⟨rfl, rfl⟩ | ⟨rfl, rfl⟩ | ⟨rfl, rfl⟩ | ⟨rfl, rfl⟩
    · simp only [pgParams]
      rw [credGet_cons_self hostKey ([] : Str) c ([] : Str)]
      rw [credGet_cons_ne hostKey ([] : Str) portKey c pgDefaultPort (by decide)]
      rw [credGet_cons_ne hostKey ([] : Str) userKey c ([] : Str) (by decide)]
      rw [credGet_cons_ne hostKey ([] : Str) passwordKey c ([] : Str) (by decide)]
      rw [credGet_cons_ne hostKey ([] : Str) databaseKey c ([] : Str) (by decide)]
      rw [credGet_absent hostKey c ([] : Str) h]
    · simp only [pgParams]
      rw [credGet_cons_ne portKey pgDefaultPort hostKey c ([] : Str) (by decide)]
      rw [credGet_cons_self portKey pgDefaultPort c pgDefaultPort]
      rw [credGet_cons_ne portKey pgDefaultPort userKey c ([] : Str) (by decide)]
      rw [credGet_cons_ne portKey pgDefaultPort passwordKey c ([] : Str) (by decide)]
      rw [credGet_cons_ne portKey pgDefaultPort databaseKey c ([] : Str) (by decide)]
      rw [credGet_absent portKey c pgDefaultPort h]
    · simp only [pgParams]
      rw [credGet_cons_ne userKey ([] : Str) hostKey c ([] : Str) (by decide)]
      rw [credGet_cons_ne userKey ([] : Str) portKey c pgDefaultPort (by decide)]
      rw [credGet_cons_self userKey ([] : Str) c ([] : Str)]
      rw [credGet_cons_ne userKey ([] : Str) passwordKey c ([] : Str) (by decide)]
      rw [credGet_cons_ne userKey ([] : Str) databaseKey c ([] : Str) (by decide)]
      rw [credGet_absent userKey c ([] : Str) h]
    · simp only [pgParams]
      rw [credGet_cons_ne passwordKey ([] : Str) hostKey c ([] : Str) (by decide)]
      rw [credGet_cons_ne passwordKey ([] : Str) portKey c pgDefaultPort (by decide)]
      rw [credGet_cons_ne passwordKey ([] : Str) userKey c ([] : Str) (by decide)]
      rw [credGet_cons_self passwordKey ([] : Str) c ([] : Str)]
      rw [credGet_cons_ne passwordKey ([] : Str) databaseKey c ([] : Str) (by decide)]
      rw [credGet_absent passwordKey c ([] : Str) h]
    · simp only [pgParams]
      rw [credGet_cons_ne databaseKey ([] : Str) hostKey c ([] : Str) (by decide)]
      rw [credGet_cons_ne databaseKey ([] : Str) portKey c pgDefaultPort (by decide)]
      rw [credGet_cons_ne databaseKey ([] : Str) userKey c ([] : Str) (by decide)]
      rw [credGet_cons_ne databaseKey ([] : Str) passwordKey c ([] : Str) (by decide)]
      rw [credGet_cons_self databaseKey ([] : Str) c ([] : Str)]
      rw [credGet_absent databaseKey c ([] : Str) h]
  · intro k d hm h
    simp only [myDefaults, List.mem_cons, List.not_mem_nil, or_false, Prod.mk.injEq] at hm
    rcases hm with ⟨rfl, rfl⟩ | ⟨rfl, rfl⟩ | ⟨rfl, rfl⟩ | ⟨rfl, rfl⟩ | ⟨rfl, rfl⟩
    · simp only [myParams]
      rw [credGet_cons_self hostKey ([] : Str) c ([] : Str)]
      rw [credGet_cons_ne hostKey ([] : Str) portKey c myDefaultPort (by decide)]
      rw [credGet_cons_ne hostKey ([] : Str) userKey c ([] : Str) (by decide)]
      rw [credGet_cons_ne hostKey ([] : Str) passwordKey c ([] : Str) (by decide)]
      rw [credGet_cons_ne hostKey ([] : Str) databaseKey c ([] : Str) (by decide)]
      rw [credGet_absent hostKey c ([] : Str) h]
    · simp only [myParams]
      rw [credGet_cons_ne portKey myDefaultPort hostKey c ([] : Str) (by decide)]
      rw [credGet_cons_self portKey myDefaultPort c myDefaultPort]
      rw [credGet_cons_ne portKey myDefaultPort userKey c ([] : Str) (by decide)]
      rw [credGet_cons_ne portKey myDefaultPort passwordKey c ([] : Str) (by decide)]
      rw [credGet_cons_ne portKey myDefaultPort databaseKey c ([] : Str) (by decide)]
      rw [credGet_absent portKey c myDefaultPort h]
    · simp only [myParams]
      rw [credGet_cons_ne userKey ([] : Str) hostKey c ([] : Str) (by decide)]
      rw [credGet_cons_ne userKey ([] : Str) portKey c myDefaultPort (by decide)]
      rw [credGet_cons_self userKey ([] : Str) c ([] : Str)]
      rw [credGet_cons_ne userKey ([] : Str) passwordKey c ([] : Str) (by decide)]
      rw [credGet_cons_ne userKey ([] : Str) databaseKey c ([] : Str) (by decide)]
      rw [credGet_absent userKey c ([] : Str) h]
    · simp only [myParams]
      rw [credGet_cons_ne passwordKey ([] : Str) hostKey c ([] : Str) (by decide)]
      rw [credGet_cons_ne passwordKey ([] : Str) portKey c myDefaultPort (by decide)]
      rw [credGet_cons_ne passwordKey ([] : Str) userKey c ([] : Str) (by decide)]
      rw [credGet_cons_self passwordKey ([] : Str) c ([] : Str)]
      rw [credGet_cons_ne passwordKey ([] : Str) databaseKey c ([] : Str) (by decide)]
      rw [credGet_absent passwordKey c ([] : Str) h]
    · simp only [myParams]
      rw [credGet_cons_ne databaseKey ([] : Str) hostKey c ([] : Str) (by decide)]
      rw [credGet_cons_ne databaseKey ([] : Str) portKey c myDefaultPort (by decide)]
      rw [credGet_cons_ne databaseKey ([] : Str) userKey c ([] : Str) (by decide)]
      rw [credGet_cons_ne databaseKey ([] : Str) passwordKey c ([] : Str) (by decide)]
      rw [credGet_cons_self databaseKey ([] : Str) c ([] : Str)]
      rw [credGet_absent databaseKey c ([] : Str) h]
  · intro k d hm h
    simp only [msDefaults, List.mem_cons, List.not_mem_nil, or_false, Prod.mk.injEq] at hm
    rcases hm with ⟨rfl, rfl⟩ | ⟨rfl, rfl⟩ | ⟨rfl, rfl⟩ | ⟨rfl, rfl⟩ | ⟨rfl, rfl⟩
    · simp only [mssqlConnString]
      rw [credGet_cons_self hostKey ([] : Str) c ([] : Str)]
      rw [credGet_cons_ne hostKey ([] : Str) portKey c msDefaultPort (by decide)]
      rw [credGet_cons_ne hostKey ([] : Str) userKey c ([] : Str) (by decide)]
      rw [credGet_cons_ne hostKey ([] : Str) passwordKey c ([] : Str) (by decide)]
      rw [credGet_cons_ne hostKey ([] : Str) databaseKey c ([] : Str) (by decide)]
      rw [credGet_absent hostKey c ([] : Str) h]
    · simp only [mssqlConnString]
      rw [credGet_cons_ne portKey msDefaultPort hostKey c ([] : Str) (by decide)]
      rw [credGet_cons_self portKey msDefaultPort c msDefaultPort]
      rw [credGet_cons_ne portKey msDefaultPort userKey c ([] : Str) (by decide)]
      rw [credGet_cons_ne portKey msDefaultPort passwordKey c ([] : Str) (by decide)]
      rw [credGet_cons_ne portKey msDefaultPort databaseKey c ([] : Str) (by decide)]
      rw [credGet_absent portKey c msDefaultPort h]
    · simp only [mssqlConnString]
      rw [credGet_cons_ne userKey ([] : Str) hostKey c ([] : Str) (by decide)]
      rw [credGet_cons_ne userKey ([] : Str) portKey c msDefaultPort (by decide)]
      rw [credGet_cons_self userKey ([] : Str) c ([] : Str)]
      rw [credGet_cons_ne userKey ([] : Str) passwordKey c ([] : Str) (by decide)]
      rw [credGet_cons_ne userKey ([] : Str) databaseKey c ([] : Str) (by decide)]
      rw [credGet_absent userKey c ([] : Str) h]
    · simp only [mssqlConnString]
      rw [credGet_cons_ne passwordKey ([] : Str) hostKey c ([] : Str) (by decide)]
      rw [credGet_cons_ne passwordKey ([] : Str) portKey c msDefaultPort (by decide)]
      rw [credGet_cons_ne passwordKey ([] : Str) userKey c ([] : Str) (by decide)]
      rw [credGet_cons_self passwordKey ([] : Str) c ([] : Str)]
      rw [credGet_cons_ne passwordKey ([] : Str) databaseKey c ([] : Str) (by decide)]
      rw [credGet_absent passwordKey c ([] : Str) h]
    · simp only [mssqlConnString]
      rw [credGet_cons_ne databaseKey ([] : Str) hostKey c ([] : Str) (by decide)]
      rw [credGet_cons_ne databaseKey ([] : Str) portKey c msDefaultPort (by decide)]
      rw [credGet_cons_ne databaseKey ([] : Str) userKey c ([] : Str) (by decide)]
      rw [credGet_cons_ne databaseKey ([] : Str) passwordKey c ([] : Str) (by decide)]
      rw [credGet_cons_self databaseKey ([] : Str) c ([] : Str)]
      rw [credGet_absent databaseKey c ([] : Str) h]
  · intro k d hm h
    simp only [mongoDefaults, List.mem_cons, List.not_mem_nil, or_false, Prod.mk.injEq] at hm
    rcases hm with ⟨rfl, rfl⟩ | ⟨rfl, rfl⟩ | ⟨rfl, rfl⟩
    · simp only [mongoArgs]
      rw [credGet_cons_self uriKey ([] : Str) c ([] : Str)]
      rw [credGet_cons_ne uriKey ([] : Str) databaseKey c ([] : Str) (by decide)]
      rw [credGet_cons_ne uriKey ([] : Str) collectionKey c ([] : Str) (by decide)]
      rw [credGet_absent uriKey c ([] : Str) h]
    · simp only [mongoArgs]
      rw [credGet_cons_ne databaseKey ([] : Str) uriKey c ([] : Str) (by decide)]
      rw [credGet_cons_self databaseKey ([] : Str) c ([] : Str)]
      rw [credGet_cons_ne databaseKey ([] : Str) collectionKey c ([] : Str) (by decide)]
      rw [credGet_absent databaseKey c ([] : Str) h]
    · simp only [mongoArgs]
      rw [credGet_cons_ne collectionKey ([] : Str) uriKey c ([] : Str) (by decide)]
      rw [credGet_cons_ne collectionKey ([] : Str) databaseKey c ([] : Str) (by decide)]
      rw [credGet_cons_self collectionKey ([] : Str) c ([] : Str)]
      rw [credGet_absent collectionKey c ([] : Str) h]
  · intro k d hm h
    simp only [sqliteDefaults, List.mem_cons, List.not_mem_nil, or_false, Prod.mk.injEq] at hm
    rcases hm with ⟨rfl, rfl⟩ | ⟨rfl, rfl⟩
    · simp only [sqliteArgs, tableArg]
      rw [credGet_cons_self filePathKey ([] : Str) c ([] : Str)]
      rw [credGet_cons_ne filePathKey ([] : Str) tableKey c ([] : Str) (by decide)]
      rw [credGet_absent filePathKey c ([] : Str) h]
    · simp only [sqliteArgs, tableArg]
      rw [credGet_cons_ne tableKey ([] : Str) filePathKey c ([] : Str) (by decide)]
      rw [credGet_cons_self tableKey ([] : Str) c ([] : Str)]
      rw [credGet_absent tableKey c ([] : Str) h]
  · intro h
    simp only [tableArg]
    rw [credGet_absent tableKey c ([] : Str) h]
  · intro db h
    have hp : pgParams c = pgParams ((portKey, pgDefaultPort) :: c) := by
      simp only [pgParams]
      rw [credGet_cons_ne portKey pgDefaultPort hostKey c ([] : Str) (by decide)]
      rw [credGet_cons_self portKey pgDefaultPort c pgDefaultPort]
      rw [credGet_cons_ne portKey pgDefaultPort userKey c ([] : Str) (by decide)]
      rw [credGet_cons_ne portKey pgDefaultPort passwordKey c ([] : Str) (by decide)]
      rw [credGet_cons_ne portKey pgDefaultPort databaseKey c ([] : Str) (by decide)]
      rw [credGet_absent portKey c pgDefaultPort h]
    have ht : tableArg c = tableArg ((portKey, pgDefaultPort) :: c) := by
      simp only [tableArg]
      rw [credGet_cons_ne portKey pgDefaultPort tableKey c ([] : Str) (by decide)]
    exact vdc_pg_congr c _ db hp ht

/-- Witness for c6_defaults_amended at the empty credentials mapping. -/
theorem c6_witness :
    pgParams [] = pgParams [(portKey, pgDefaultPort)]
    ∧ mssqlConnString [] = mssqlConnString [(portKey, msDefaultPort)]
    ∧ mongoArgs [] = mongoArgs [(uriKey, [])] :=
  ⟨(@c6_defaults_amended Unit []).1 portKey pgDefaultPort (by decide) rfl,
   (@c6_defaults_amended Unit []).2.2.1 portKey msDefaultPort (by decide) rfl,
   (@c6_defaults_amended Unit []).2.2.2.1 uriKey [] (by decide) rfl⟩

/-- C5 (code bug evidence): the guard of the OpenAI branch of get_llm is
false on every call because USE_OPENAI is looked up in locals(); with no
provider importable the configuration ImportError is raised as specified, but
in the OpenAI fallback state get_llm demands GOOGLE_API_KEY (a ValueError
about the wrong provider although OPENAI_API_KEY is set), and with
GOOGLE_API_KEY also set it raises NameError on the never-imported google
client class instead of selecting OpenAI; generate_etl_code propagates the
failure. -/
theorem c5_get_llm_locals_bug :
    (∀ w : PyEnv, (useOpenaiInLocals && USE_OPENAI w) = false)
    ∧ get_llm envNeitherProvider = PyOutcome.importError neitherProviderMsg
    ∧ USE_OPENAI envOpenaiFallback = true
    ∧ get_llm envOpenaiFallback = PyOutcome.valueError googleKeyMsg
    ∧ get_llm envOpenaiFallbackBothKeys = PyOutcome.nameError chatGoogleNameErr
    ∧ (∀ (invoke : LlmChoice → GenRequest → Str) (req : GenRequest),
        generate_etl_code envOpenaiFallback invoke req
          = PyOutcome.valueError googleKeyMsg) :=
  ⟨fun _ => rfl, by decide, by decide, by decide, by decide, fun _ _ => rfl⟩

end FsEtl
